import Mathlib

/-!
Verification development for the `bevy_eventwork` connection manager and
message-dispatch engine.

The definitions below are a shallow embedding of the Rust source:

* `src/src/managers.rs`         — the `Network` resource (state fields)
* `src/src/managers/network.rs` — `listen`, `stop`, `connect`, `send_message`,
  `broadcast`, `disconnect`, `has_connections`,
  `handle_new_incoming_connections`, `listen_for_message`, `register_message`
* `src/src/managers/network_request.rs` — `ResponseMap`, `Requester::send_request`,
  `Response::try_recv`, `Request::respond`, `create_request_handlers`,
  `create_client_response_handlers`, `listen_for_request_message`,
  `listen_for_response_message`
* `src/src/lib.rs`              — `ConnectionId`, `NetworkPacket`, `Connection`
* `src/src/error.rs`            — `NetworkError`

Rust machine integers are embedded as `Nat` with explicit wraparound
(`% 2^32` for the `u32` connection counter, `% 2^64` for the `u64`
correlation counter).  `bincode` serialization is abstracted as a function
`α → Option (List Nat)` (bytes), and deserialization as
`List Nat → Option α`; a failing result models a bincode error.
A Rust panic (from `assert!`/`expect`) is embedded as `Option.none` /
a dedicated result constructor; `async_channel` channels are embedded by
their observable queue state plus a closed flag.
-/

/-- Size of the `u32` type: the `connection_count` counter wraps at this bound. -/
def u32Size : Nat := 2 ^ 32

/-- Size of the `u64` type: the correlation counter of `ResponseMap` wraps at this bound. -/
def u64Size : Nat := 2 ^ 64

/-- Embeds `ConnectionId` (src/src/lib.rs): an opaque `u32` handle. -/
structure ConnectionId where
  id : Nat
deriving DecidableEq, Repr

/-- Embeds `NetworkPacket` (src/src/lib.rs): the wire envelope of a kind tag and
opaque payload bytes. -/
structure NetworkPacket where
  kind : String
  data : List Nat
deriving DecidableEq, Repr

/-- Embeds `NetworkError` (src/src/error.rs).  The `std::io::Error` payloads of
`Accept`/`Listen`/`Connection` carry no information the claims need and are dropped. -/
inductive NetworkError where
  | Error (s : String)
  | Accept
  | ConnectionNotFound (id : ConnectionId)
  | ChannelClosed (id : ConnectionId)
  | Listen
  | Connection
  | SendError
  | Serialization
deriving DecidableEq, Repr

/-- Embeds the observable state of a `Connection`'s outgoing `async_channel`
(the `send_message : Sender<NetworkPacket>` field of `Connection` in src/src/lib.rs):
the queued packets, and whether the channel is closed (its receiver — held by the
connection's send task — has been dropped, so `try_send` fails). -/
structure Conn where
  queue : List NetworkPacket
  queueClosed : Bool
deriving DecidableEq, Repr

/-- Embeds the `Network` resource state (src/src/managers.rs).

* `recvMessageMap` — `recv_message_map: DashMap<&str, Vec<(ConnectionId, Vec<u8>)>>`,
  as an association list;
* `established` — `established_connections: DashMap<ConnectionId, Connection>`;
* `newConnections` — the number of sockets queued in the `new_connections` channel
  (sockets are opaque, only their count is observable);
* `disconnected` — the `disconnected_connections` channel contents;
* `serverHandle` — whether `server_handle: Option<Box<dyn JoinHandle>>` is `Some`;
* `activeListeners` — the number of listener tasks that have been spawned by
  `listen` and not yet aborted (the subject of the at-most-one-listener claim);
* `connectionCount` — `connection_count: u32`. -/
structure NetState where
  recvMessageMap : List (String × List (ConnectionId × List Nat))
  established : List (ConnectionId × Conn)
  newConnections : Nat
  disconnected : List ConnectionId
  serverHandle : Bool
  activeListeners : Nat
  connectionCount : Nat
deriving DecidableEq, Repr

/-- The state `Network::new` builds (src/src/managers/network.rs): all maps and
queues empty, no listener, counter zero. -/
def initState : NetState :=
  { recvMessageMap := []
  , established := []
  , newConnections := 0
  , disconnected := []
  , serverHandle := false
  , activeListeners := 0
  , connectionCount := 0 }

/-- Association-list lookup on the registry map (`DashMap::get` keyed by kind tag). -/
def lookupKind : List (String × List (ConnectionId × List Nat)) → String →
    Option (List (ConnectionId × List Nat))
  | [], _ => none
  | (k, v) :: rest, key => if k = key then some v else lookupKind rest key

/-- Association-list update of an existing registry entry (the in-place mutation
performed through `DashMap::get_mut`). -/
def updateKind : List (String × List (ConnectionId × List Nat)) → String →
    List (ConnectionId × List Nat) → List (String × List (ConnectionId × List Nat))
  | [], _, _ => []
  | (k, v) :: rest, key, newV =>
      if k = key then (k, newV) :: rest else (k, v) :: updateKind rest key newV

/-- Registry membership test (`DashMap::contains_key`). -/
def containsKind (m : List (String × List (ConnectionId × List Nat))) (key : String) : Bool :=
  (lookupKind m key).isSome

/-- Association-list lookup on the connection table (`DashMap::get`). -/
def lookupConn : List (ConnectionId × Conn) → ConnectionId → Option Conn
  | [], _ => none
  | (i, c) :: rest, key => if i = key then some c else lookupConn rest key

/-- Insert-or-replace on the connection table (`DashMap::insert`). -/
def insertConn : List (ConnectionId × Conn) → ConnectionId → Conn →
    List (ConnectionId × Conn)
  | [], key, c => [(key, c)]
  | (i, c0) :: rest, key, c =>
      if i = key then (key, c) :: rest else (i, c0) :: insertConn rest key c

/-- Removal from the connection table (`DashMap::remove`); a no-op when absent. -/
def removeConn : List (ConnectionId × Conn) → ConnectionId → List (ConnectionId × Conn)
  | [], _ => []
  | (i, c) :: rest, key => if i = key then rest else (i, c) :: removeConn rest key

/-- Embeds `Network::has_connections` (src/src/managers/network.rs line 43):
`self.established_connections.len() > 0`. -/
def hasConnections (st : NetState) : Bool :=
  st.established.length > 0

/-- Embeds `Network::stop` (src/src/managers/network.rs lines 155–166).
If `server_handle` is `Some`: take and abort it (one listener task stops),
send every established connection's key to the `disconnected_connections`
channel, `clear()` both the connection table and the whole `recv_message_map`
(entries are removed, not merely emptied), and drain the `new_connections`
channel.  If `server_handle` is `None`, the body does nothing. -/
def stepStop (st : NetState) : NetState :=
  if st.serverHandle then
    { st with
        serverHandle := false
      , activeListeners := st.activeListeners - 1
      , disconnected := st.disconnected ++ st.established.map Prod.fst
      , established := []
      , recvMessageMap := []
      , newConnections := 0 }
  else st

/-- Embeds `Network::listen` (src/src/managers/network.rs lines 51–73):
first a full `stop()`, then spawn one fresh accept-loop task and store its
handle in `server_handle`. -/
def stepListen (st : NetState) : NetState :=
  let s := stepStop st
  { s with serverHandle := true, activeListeners := s.activeListeners + 1 }

/-- Models a socket arriving on the `new_connections` channel: either the accept
loop spawned by `listen` yielded an inbound socket, or a `connect_task` spawned by
`Network::connect` (src/src/managers/network.rs lines 79–104) succeeded — both send
into the same channel. -/
def stepArrive (st : NetState) : NetState :=
  { st with newConnections := st.newConnections + 1 }

/-- Embeds the body of the first `while let Ok(new_conn)` loop of
`handle_new_incoming_connections` (src/src/managers/network.rs lines 188–238),
run once per queued socket: `connection_count += 1` (a `u32`, so wrapping),
`id = connection_count`, insert a fresh `Connection` with an open outgoing
queue, and emit `NetworkEvent::Connected(conn_id)` — accumulated in `acc`. -/
def pollEstablish : Nat → NetState → List Nat → NetState × List Nat
  | 0, st, acc => (st, acc)
  | n + 1, st, acc =>
      let c := (st.connectionCount + 1) % u32Size
      pollEstablish n
        { st with
            connectionCount := c
          , established := insertConn st.established ⟨c⟩ ⟨[], false⟩ }
        (acc ++ [c])

/-- Embeds one invocation of the `handle_new_incoming_connections` system
(src/src/managers/network.rs lines 182–246): drain the `new_connections` channel
establishing each socket, then drain the `disconnected_connections` channel
removing each id from the table.  Returns the updated state and the list of
`Connected` ids emitted (appended to `acc`). -/
def stepPoll (st : NetState) (acc : List Nat) : NetState × List Nat :=
  let (st1, acc1) := pollEstablish st.newConnections { st with newConnections := 0 } acc
  ({ st1 with
       established := st1.disconnected.foldl removeConn st1.established
     , disconnected := [] }
   , acc1)

/-- Embeds `Network::disconnect` (src/src/managers/network.rs lines 169–179):
remove the id from the table (and stop its tasks); `ConnectionNotFound` if absent.
Only the state effect is kept here; on the error path the state is unchanged. -/
def stepDisconnect (st : NetState) (connId : ConnectionId) : NetState :=
  { st with established := removeConn st.established connId }

/-- Models a connection's receive loop exiting (stream closed or protocol
violation): the receive task posts the id to the `disconnected_connections`
channel (src/src/managers/network.rs lines 211–216). -/
def stepConnDied (st : NetState) (connId : ConnectionId) : NetState :=
  { st with disconnected := st.disconnected ++ [connId] }

/-- Models a connection's send task exiting (`send_loop` returned): the receiver
of the outgoing channel is dropped, so the channel becomes closed and later
`try_send` calls fail. -/
def stepCloseQueue (st : NetState) (connId : ConnectionId) : NetState :=
  match lookupConn st.established connId with
  | none => st
  | some c =>
      { st with established := insertConn st.established connId ({ c with queueClosed := true }) }

/-- Embeds the per-packet body of the demux task (`map_receive_task`,
src/src/managers/network.rs lines 218–227): look the packet's kind up in
`recv_message_map`; if found, push `(conn_id, packet.data)`; otherwise log and
drop the packet. -/
def demuxPacket (st : NetState) (connId : ConnectionId) (pkt : NetworkPacket) : NetState :=
  match lookupKind st.recvMessageMap pkt.kind with
  | some packets =>
      { st with recvMessageMap :=
          updateKind st.recvMessageMap pkt.kind (packets ++ [(connId, pkt.data)]) }
  | none => st

/-- Embeds `Network::send_message` (src/src/managers/network.rs lines 107–131),
with the message's `bincode::serialize` abstracted as `ser` and `T::NAME` as
`name`.  Order follows the source: table lookup first (`ConnectionNotFound`),
then serialization (`Serialization`), then `try_send` on the connection's
outgoing channel (`ChannelClosed` when the channel is closed).  The returned
state is unchanged on every error path. -/
def sendMessage {α : Type} (ser : α → Option (List Nat)) (name : String)
    (st : NetState) (clientId : ConnectionId) (message : α) :
    Except NetworkError Unit × NetState :=
  match lookupConn st.established clientId with
  | none => (.error (.ConnectionNotFound clientId), st)
  | some conn =>
      match ser message with
      | none => (.error .Serialization, st)
      | some data =>
          if conn.queueClosed then
            (.error (.ChannelClosed clientId), st)
          else
            let conn1 := { conn with queue := conn.queue ++ [⟨name, data⟩] }
            (.ok (), { st with established := insertConn st.established clientId conn1 })

/-- Embeds `Network::broadcast` (src/src/managers/network.rs lines 134–149):
`bincode::serialize(&message).expect("Couldn't serialize message!")` — a failing
serialization panics, embedded as `none`.  Otherwise every established
connection gets an independent clone of the packet via `try_send`; a connection
whose channel is closed is skipped with only a warning, and the call returns
normally (`broadcast` has no error return at all). -/
def broadcast {α : Type} (ser : α → Option (List Nat)) (name : String)
    (st : NetState) (message : α) : Option NetState :=
  match ser message with
  | none => none
  | some data =>
      some { st with established :=
        st.established.map fun p =>
          (p.1, if p.2.queueClosed then p.2
                else { p.2 with queue := p.2.queue ++ [⟨name, data⟩] }) }

/-- Embeds `AppNetworkMessage::listen_for_message` (src/src/managers/network.rs
lines 262–279): `assert!(!recv_message_map.contains_key(T::NAME))` — a duplicate
tag panics (embedded as `none`) before anything is inserted; otherwise an empty
pending queue is inserted for the tag. -/
def listenForMessage (name : String) (st : NetState) : Option NetState :=
  if containsKind st.recvMessageMap name then none
  else some { st with recvMessageMap := st.recvMessageMap ++ [(name, [])] }

/-- Embeds `AppNetworkRequestMessage::listen_for_request_message`
(src/src/managers/network_request.rs lines 364–393): the duplicate check and the
insertion target the same `recv_message_map`, keyed by
`RequestInternal::<T>::NAME = T::REQUEST_NAME` (here the argument `name`). -/
def listenForRequestMessage (name : String) (st : NetState) : Option NetState :=
  if containsKind st.recvMessageMap name then none
  else some { st with recvMessageMap := st.recvMessageMap ++ [(name, [])] }

/-- Embeds `AppNetworkResponseMessage::listen_for_response_message`
(src/src/managers/network_request.rs lines 428–457): same map, keyed by
`ResponseInternal::<T::ResponseMessage>::NAME = T::ResponseMessage::NAME`. -/
def listenForResponseMessage (name : String) (st : NetState) : Option NetState :=
  if containsKind st.recvMessageMap name then none
  else some { st with recvMessageMap := st.recvMessageMap ++ [(name, [])] }

/-- Embeds the `register_message` system (src/src/managers/network.rs lines
281–297): drain the tag's pending queue (a no-op if the tag has no entry) and
deserialize each entry, dropping entries that fail to deserialize.  Returns the
updated state and the delivered `NetworkData` items as `(source, inner)` pairs. -/
def registerMessageDrain {α : Type} (de : List Nat → Option α) (name : String)
    (st : NetState) : NetState × List (ConnectionId × α) :=
  match lookupKind st.recvMessageMap name with
  | none => (st, [])
  | some messages =>
      ({ st with recvMessageMap := updateKind st.recvMessageMap name [] }
       , messages.filterMap fun p => (de p.2).map fun inner => (p.1, inner))

/-- The operations of the manager's lifecycle traces quantified over by the
invariant claims: host calls (`listen`, `stop`, `disconnect`), background-task
events (socket arrival, receive-loop exit, send-task exit, demux of a packet),
the per-tick poll system, message registration (skipped when the tag is already
present: in the source a duplicate panics — see `listenForMessage` — so no
later operation of a real trace follows it), and a packet enqueue (a
`send_message` whose serialization already succeeded). -/
inductive Op where
  | listen
  | stop
  | arrive
  | poll
  | disconnect (connId : ConnectionId)
  | connDied (connId : ConnectionId)
  | closeQueue (connId : ConnectionId)
  | demux (connId : ConnectionId) (pkt : NetworkPacket)
  | register (name : String)
  | sendPkt (connId : ConnectionId) (pkt : NetworkPacket)
deriving DecidableEq, Repr

/-- One step of the lifecycle trace semantics, threading the accumulator of
emitted `Connected` ids. -/
def step (st : NetState) (acc : List Nat) : Op → NetState × List Nat
  | .listen => (stepListen st, acc)
  | .stop => (stepStop st, acc)
  | .arrive => (stepArrive st, acc)
  | .poll => stepPoll st acc
  | .disconnect connId => (stepDisconnect st connId, acc)
  | .connDied connId => (stepConnDied st connId, acc)
  | .closeQueue connId => (stepCloseQueue st connId, acc)
  | .demux connId pkt => (demuxPacket st connId pkt, acc)
  | .register name =>
      (if containsKind st.recvMessageMap name then st
       else { st with recvMessageMap := st.recvMessageMap ++ [(name, [])] }, acc)
  | .sendPkt connId pkt =>
      (match lookupConn st.established connId with
       | none => st
       | some c =>
           if c.queueClosed then st
           else
             let c1 := { c with queue := c.queue ++ [pkt] }
             { st with established := insertConn st.established connId c1 }
       , acc)

/-- Run a trace of operations from a state, with the `Connected`-id accumulator. -/
def runAcc (st : NetState) (acc : List Nat) : List Op → NetState × List Nat
  | [] => (st, acc)
  | op :: ops =>
      let (st1, acc1) := step st acc op
      runAcc st1 acc1 ops

/-- The state reached by a trace of operations from the initial manager state. -/
def run (ops : List Op) : NetState :=
  (runAcc initState [] ops).1

/-- The `Connected` ids emitted over a trace, in emission order. -/
def connectedIds (ops : List Op) : List Nat :=
  (runAcc initState [] ops).2

/-- The number of `arrive` operations in a trace: an upper bound on the number of
connections that can be established over it. -/
def numArrivals : List Op → Nat
  | [] => 0
  | .arrive :: ops => numArrivals ops + 1
  | _ :: ops => numArrivals ops

/-- Embeds the observable state of one correlation id's one-shot response channel
(the `async_channel::bounded(1)` pair built in `ResponseMap::get_responder`,
src/src/managers/network_request.rs lines 276–283), together with whether its
sender is still registered in the `ResponseMap`'s `DashMap`:

* `buf` — the channel's single-element buffer;
* `receiverLive` — the `Response` handle (holding the receiver) has not been
  dropped or consumed; when false, the channel counts as closed for `try_send`;
* `senderInMap` — the sender half is still present in `ResponseMap.map`
  under this correlation id. -/
structure Slot (β : Type) where
  buf : Option β
  receiverLive : Bool
  senderInMap : Bool
deriving DecidableEq, Repr

/-- Embeds `ResponseMap<T>` (src/src/managers/network_request.rs lines 259–288):
the `AtomicU64` counter and, keyed by correlation id, the one-shot channels it
has created.  An id is "in the map" when its slot's `senderInMap` is true. -/
structure RespMapState (β : Type) where
  count : Nat
  slots : List (Nat × Slot β)
deriving DecidableEq, Repr

/-- The `ResponseMap::default()` state: counter zero, empty map. -/
def respMapInit {β : Type} : RespMapState β :=
  { count := 0, slots := [] }

/-- Association-list lookup on the slot store. -/
def lookupSlot {β : Type} : List (Nat × Slot β) → Nat → Option (Slot β)
  | [], _ => none
  | (i, s) :: rest, key => if i = key then some s else lookupSlot rest key

/-- Insert-or-replace on the slot store (`DashMap::insert`). -/
def insertSlot {β : Type} : List (Nat × Slot β) → Nat → Slot β → List (Nat × Slot β)
  | [], key, s => [(key, s)]
  | (i, s0) :: rest, key, s =>
      if i = key then (key, s) :: rest else (i, s0) :: insertSlot rest key s

/-- Embeds `ResponseMap::get_responder` (src/src/managers/network_request.rs
lines 276–283): `fetch_add(1)` on the `u64` counter returns the previous value
as the fresh correlation id, a `bounded(1)` channel is created, its sender is
inserted into the map, and the receiver is wrapped in the returned `Response`
handle (identified here by the correlation id). -/
def getResponder {β : Type} (rs : RespMapState β) : Nat × RespMapState β :=
  let id := rs.count % u64Size
  (id, { count := (rs.count + 1) % u64Size
       , slots := insertSlot rs.slots id { buf := none, receiverLive := true, senderInMap := true } })

/-- Embeds `Requester::send_request` (src/src/managers/network_request.rs lines
229–239): first `get_responder` (allocating the id and registering the slot),
then `send_message(client_id, RequestInternal { id, request })?`.  On a
send error the `?` propagates it — the slot registration and counter advance
are not rolled back.  `serReq` abstracts `bincode::serialize` of
`RequestInternal<T>` (an id/payload pair) and `reqName` is `T::REQUEST_NAME`.
Returns the result (the `Response` handle as its correlation id), the new
`ResponseMap` state, and the new network state. -/
def sendRequest {α β : Type} (serReq : Nat × α → Option (List Nat)) (reqName : String)
    (rs : RespMapState β) (st : NetState) (clientId : ConnectionId) (request : α) :
    Except NetworkError Nat × RespMapState β × NetState :=
  let (id, rs1) := getResponder rs
  let out := sendMessage serReq reqName st clientId (id, request)
  (match out.1 with
   | .ok _ => .ok id
   | .error e => .error e
   , rs1, out.2)

/-- Embeds `Response::try_recv` (src/src/managers/network_request.rs lines
250–257) for the handle of correlation id `id`: a non-blocking `try_recv` on the
one-shot channel.  On `Ok` the value is returned and `self` is consumed — the
receiver is dropped, so the slot's `receiverLive` becomes false; on `Err` the
handle (and all state) is returned unchanged. -/
def responseTryRecv {β : Type} (rs : RespMapState β) (id : Nat) :
    Option β × RespMapState β :=
  match lookupSlot rs.slots id with
  | some s =>
      match s.buf with
      | some v =>
          (some v, { rs with slots := insertSlot rs.slots id { s with buf := none, receiverLive := false } })
      | none => (none, rs)
  | none => (none, rs)

/-- Models dropping a `Response` handle without consuming it (cancellation):
the receiver is dropped and the one-shot channel becomes closed; the sender —
if still registered — stays in the map. -/
def responseDrop {β : Type} (rs : RespMapState β) (id : Nat) : RespMapState β :=
  match lookupSlot rs.slots id with
  | some s => { rs with slots := insertSlot rs.slots id { s with receiverLive := false } }
  | none => rs

/-- Embeds the per-response body of `create_client_response_handlers`
(src/src/managers/network_request.rs lines 459–470) for an arriving
`ResponseInternal { response_id, response }`: `ResponseMap::remove(response_id)`
(src lines 285–287) takes the sender out of the map; if one was found,
`sender.try_send(response).expect("Internal channel closed!")` — a `try_send`
failure (the channel is closed because the `Response` handle was dropped, or its
one-element buffer is already full) panics, embedded as `none`.  If no sender
was registered under the id, the response is dropped and nothing changes. -/
def handleResponse {β : Type} (rs : RespMapState β) (responseId : Nat) (response : β) :
    Option (RespMapState β) :=
  match lookupSlot rs.slots responseId with
  | some s =>
      if s.senderInMap then
        if s.receiverLive && s.buf.isNone then
          let filled : Slot β := { buf := some response, receiverLive := true, senderInMap := false }
          some { rs with slots := insertSlot rs.slots responseId filled }
        else none
      else some rs
  | none => some rs

/-- Embeds the `Request<T>` handle (src/src/managers/network_request.rs lines
320–326) delivered to the request-receiving side: the deserialized request, the
sender's id, the correlation id, and the captured clone of the source
connection's outgoing channel (`response_tx`), carried by value. -/
structure RequestHandle (α : Type) where
  request : α
  source : ConnectionId
  requestId : Nat
  responseTx : Conn
deriving DecidableEq, Repr

/-- Embeds the `create_request_handlers` system (src/src/managers/network_request.rs
lines 395–410): each deserialized `NetworkData<RequestInternal<T>>` — a
`(source, (id, request))` triple — is wrapped into a `Request` handle if and only
if its source is still in the connection table, capturing that connection's
outgoing channel. -/
def createRequestHandlers {α : Type} (st : NetState)
    (datas : List (ConnectionId × (Nat × α))) : List (RequestHandle α) :=
  datas.filterMap fun d =>
    (lookupConn st.established d.1).map fun conn =>
      { request := d.2.2, source := d.1, requestId := d.2.1, responseTx := conn }

/-- Embeds `Request::respond` (src/src/managers/network_request.rs lines
342–355): serialize `ResponseInternal { response_id, response }` under the
response message's own kind tag (`Serialization` error on failure), then
`try_send` it on the captured channel (`SendError` when the channel is closed).
Returns the updated channel state on success. -/
def respond {α β : Type} (serResp : Nat × β → Option (List Nat)) (respName : String)
    (req : RequestHandle α) (response : β) : Except NetworkError Conn :=
  match serResp (req.requestId, response) with
  | none => .error .Serialization
  | some data =>
      if req.responseTx.queueClosed then .error .SendError
      else .ok { req.responseTx with queue := req.responseTx.queue ++ [⟨respName, data⟩] }

/-- Number of registry entries stored under a tag (used to state that a tag owns
a single entry). -/
def countKind (m : List (String × List (ConnectionId × List Nat))) (name : String) : Nat :=
  (m.filter fun p => p.1 == name).length

/-- A reachable manager state with an active listener, one registered message
kind with an empty pending queue, and one established connection
(e.g. reached by registering `"a"`, calling `listen`, and establishing one
inbound connection). -/
def listeningState : NetState :=
  { recvMessageMap := [("a", [])]
  , established := [(⟨1⟩, ⟨[], false⟩)]
  , newConnections := 0
  , disconnected := []
  , serverHandle := true
  , activeListeners := 1
  , connectionCount := 1 }

/-- A reachable correlator state: one request was sent (correlation id 0) and
its `Response` handle has since been dropped without being polled, so the
one-shot channel is closed while its sender is still registered in the map.
Reached by `sendRequest` from `respMapInit` followed by `responseDrop`. -/
def droppedHandleMap : RespMapState Nat :=
  { count := 1, slots := [(0, { buf := none, receiverLive := false, senderInMap := true })] }

/-- A manager state with a single established connection whose outgoing queue is
open. -/
def oneConnState : NetState :=
  { initState with established := [(⟨1⟩, ⟨[], false⟩)], connectionCount := 1 }

/-- A serializer that fails on every input, modelling a payload `bincode` cannot
encode. -/
def serFail {α : Type} : α → Option (List Nat) := fun _ => none

/-- A serializer for `Nat` payloads that always succeeds, modelling an ordinary
encodable message. -/
def serNat : Nat → Option (List Nat) := fun n => some [n]

/-- A serializer for id/`Nat`-payload pairs (the shape of `RequestInternal` and
`ResponseInternal`), always succeeding. -/
def serPair : Nat × Nat → Option (List Nat) := fun p => some [p.1, p.2]

/-- The deserializer inverting `serPair`. -/
def dePair : List Nat → Option (Nat × Nat)
  | [i, x] => some (i, x)
  | _ => none

/-! ### Helper lemmas -/

theorem lookupSlot_insertSlot_self {β : Type} (l : List (Nat × Slot β)) (k : Nat) (s : Slot β) :
    lookupSlot (insertSlot l k s) k = some s := by
  induction l with
  | nil => simp [insertSlot, lookupSlot]
  | cons hd tl ih =>
      by_cases h : hd.1 = k
      · simp [insertSlot, lookupSlot, h]
      · simp [insertSlot, lookupSlot, h, ih]

theorem lookupConn_insertConn_self (l : List (ConnectionId × Conn)) (k : ConnectionId) (c : Conn) :
    lookupConn (insertConn l k c) k = some c := by
  induction l with
  | nil => simp [insertConn, lookupConn]
  | cons hd tl ih =>
      by_cases h : hd.1 = k
      · simp [insertConn, lookupConn, h]
      · simp [insertConn, lookupConn, h, ih]

theorem lookupKind_updateKind_self (m : List (String × List (ConnectionId × List Nat)))
    (k : String) (v0 v : List (ConnectionId × List Nat)) (h : lookupKind m k = some v0) :
    lookupKind (updateKind m k v) k = some v := by
  induction m with
  | nil => simp [lookupKind] at h
  | cons hd tl ih =>
      by_cases hk : hd.1 = k
      · simp [updateKind, lookupKind, hk]
      · simp [lookupKind, hk] at h
        simp [updateKind, lookupKind, hk, ih h]

theorem lookupKind_append_self (m : List (String × List (ConnectionId × List Nat)))
    (k : String) (v : List (ConnectionId × List Nat)) (h : lookupKind m k = none) :
    lookupKind (m ++ [(k, v)]) k = some v := by
  induction m with
  | nil => simp [lookupKind]
  | cons hd tl ih =>
      by_cases hk : hd.1 = k
      · simp [lookupKind, hk] at h
      · simp [lookupKind, hk] at h ⊢
        exact ih h

theorem countKind_of_lookup_none (m : List (String × List (ConnectionId × List Nat)))
    (k : String) (h : lookupKind m k = none) : countKind m k = 0 := by
  induction m with
  | nil => simp [countKind]
  | cons hd tl ih =>
      by_cases hk : hd.1 = k
      · simp [lookupKind, hk] at h
      · simp [lookupKind, hk] at h
        have : (hd.1 == k) = false := by simp [hk]
        simp [countKind, List.filter, this] at ih ⊢
        exact ih h

theorem lookupConn_broadcast_map (l : List (ConnectionId × Conn)) (name : String)
    (bs : List Nat) (i : ConnectionId) :
    lookupConn
      (l.map fun p =>
        (p.1, if p.2.queueClosed then p.2 else { p.2 with queue := p.2.queue ++ [⟨name, bs⟩] })) i =
    (lookupConn l i).map
      fun c => if c.queueClosed then c else { c with queue := c.queue ++ [⟨name, bs⟩] } := by
  induction l with
  | nil => simp [lookupConn]
  | cons hd tl ih =>
      by_cases h : hd.1 = i
      · simp [lookupConn, h]
      · simp [lookupConn, h, ih]

theorem sendMessage_error_state {α : Type} (ser : α → Option (List Nat)) (name : String)
    (st : NetState) (clientId : ConnectionId) (m : α) (e : NetworkError)
    (h : (sendMessage ser name st clientId m).1 = .error e) :
    (sendMessage ser name st clientId m).2 = st := by
  unfold sendMessage at h ⊢
  cases hc : lookupConn st.established clientId with
  | none => simp [hc]
  | some conn =>
      cases hs : ser m with
      | none => simp [hc, hs]
      | some data =>
          by_cases hq : conn.queueClosed
          · simp [hc, hs, hq]
          · rw [hc, hs] at h
            simp [hq] at h

/-! ### C2 — effect of `stop()` on the registry -/

/-- C2 counterexample: in a reachable listener-active state whose registry holds
the registered kind `"a"` (with an empty pending queue), `stop()` does NOT keep
the kind's registry entry: `recv_message_map.clear()` removes the entry itself,
so the lookup that routed packets of kind `"a"` now fails.  This refutes the
claim that every registered message kind keeps its registry entry across
`stop()`. -/
theorem C2_stop_discards_registry_entries :
    listeningState.serverHandle = true ∧
    lookupKind listeningState.recvMessageMap "a" = some [] ∧
    lookupKind (stepStop listeningState).recvMessageMap "a" = none := by
  refine ⟨rfl, rfl, rfl⟩

/-- C2 amended: for every manager state with an active listener, `stop()`
empties the connection table and removes every registry entry entirely (pending
data is discarded together with the entries).  Consequently a packet of a
previously registered kind arriving after a later `listen()` is unroutable: the
demux step finds no entry and drops it, leaving the state unchanged. -/
theorem C2_amended_stop_clears_table_and_registry (st : NetState)
    (h : st.serverHandle = true) (connId : ConnectionId) (pkt : NetworkPacket) :
    (stepStop st).established = [] ∧
    (stepStop st).recvMessageMap = [] ∧
    demuxPacket (stepListen (stepStop st)) connId pkt = stepListen (stepStop st) := by
  simp [stepStop, stepListen, demuxPacket, lookupKind, h]

/-- Witness instantiating `C2_amended_stop_clears_table_and_registry` at the
concrete reachable state `listeningState`. -/
theorem C2_amended_witness :
    listeningState.serverHandle = true ∧
    ((stepStop listeningState).established = [] ∧
     (stepStop listeningState).recvMessageMap = [] ∧
     demuxPacket (stepListen (stepStop listeningState)) ⟨1⟩ ⟨"a", [7]⟩ =
       stepListen (stepStop listeningState)) :=
  ⟨rfl, C2_amended_stop_clears_table_and_registry listeningState rfl ⟨1⟩ ⟨"a", [7]⟩⟩

/-! ### C3 — handling of unmatched response packets -/

/-- C3 counterexample: in the reachable correlator state where the requester's
`Response` handle was already dropped (cancelled) but the sender is still
registered under correlation id 0, the response-handling step does not drop the
arriving response — it panics (`try_send(..).expect("Internal channel
closed!")`), embedded as `none`.  This refutes the claim that the
already-cancelled case is dropped without panicking. -/
theorem C3_cancelled_response_panics :
    (lookupSlot droppedHandleMap.slots 0).map Slot.receiverLive = some false ∧
    (lookupSlot droppedHandleMap.slots 0).map Slot.senderInMap = some true ∧
    handleResponse droppedHandleMap 0 42 = none := by
  refine ⟨rfl, rfl, rfl⟩

/-- C3 amended: an arriving response whose correlation id has no sender
registered in the pending map — because the response is late or a duplicate of
an already-resolved id — is dropped without panicking and without any state
change.  (If the id is still registered but the `Response` handle was dropped,
the handler panics instead — see the counterexample.) -/
theorem C3_amended_unmatched_response_dropped {β : Type} (rs : RespMapState β)
    (responseId : Nat) (response : β)
    (h : ∀ s, lookupSlot rs.slots responseId = some s → s.senderInMap = false) :
    handleResponse rs responseId response = some rs := by
  unfold handleResponse
  cases hl : lookupSlot rs.slots responseId with
  | none => rfl
  | some s => simp [h s hl]

/-- Witness instantiating `C3_amended_unmatched_response_dropped` at a concrete
duplicate: correlation id 0 was already resolved (sender removed from the map,
value buffered), and a second response for id 0 arrives. -/
theorem C3_amended_witness :
    (∀ s, lookupSlot (RespMapState.mk 1 [(0, ⟨some 9, true, false⟩)] : RespMapState Nat).slots 0 =
        some s → s.senderInMap = false) ∧
    handleResponse (RespMapState.mk 1 [(0, ⟨some 9, true, false⟩)] : RespMapState Nat) 0 42 =
      some (RespMapState.mk 1 [(0, ⟨some 9, true, false⟩)]) := by
  refine ⟨?_, ?_⟩
  · intro s hs
    simp [lookupSlot] at hs
    simp [← hs]
  · exact C3_amended_unmatched_response_dropped _ 0 42 (by
      intro s hs
      simp [lookupSlot] at hs
      simp [← hs])

/-! ### C4 — serialization failure on synchronous sends -/

/-- C4 counterexample: `broadcast` with a payload that fails to serialize does
not return a `Serialization` error to the caller — it panics
(`serialize(..).expect("Couldn't serialize message!")`), embedded as `none`,
even with an established connection that would otherwise receive the packet.
This refutes the claim that every synchronous send operation returns a
`Serialization` error instead of panicking. -/
theorem C4_broadcast_serialization_panics :
    broadcast serFail "kind" oneConnState (0 : Nat) = none := rfl

/-- C4 amended: when serialization of the payload fails, `send_message` to an
established connection returns a `Serialization` error to the immediate caller
and leaves the state unchanged (nothing is enqueued on any connection's
outgoing queue); `broadcast`, which has no error return, panics instead — and
the panic occurs before anything is enqueued. -/
theorem C4_amended_send_serialization_error {α : Type} (ser : α → Option (List Nat))
    (name : String) (st : NetState) (clientId : ConnectionId) (conn : Conn) (m : α)
    (hconn : lookupConn st.established clientId = some conn)
    (hser : ser m = none) :
    sendMessage ser name st clientId m = (.error .Serialization, st) ∧
    broadcast ser name st m = none := by
  constructor
  · simp [sendMessage, hconn, hser]
  · simp [broadcast, hser]

/-- Witness instantiating `C4_amended_send_serialization_error` at the concrete
one-connection state with the always-failing serializer. -/
theorem C4_amended_witness :
    lookupConn oneConnState.established ⟨1⟩ = some ⟨[], false⟩ ∧
    serFail (0 : Nat) = none ∧
    (sendMessage serFail "kind" oneConnState ⟨1⟩ (0 : Nat) =
       (.error .Serialization, oneConnState) ∧
     broadcast serFail "kind" oneConnState (0 : Nat) = none) :=
  ⟨rfl, rfl, C4_amended_send_serialization_error serFail "kind" oneConnState ⟨1⟩ ⟨[], false⟩ 0 rfl rfl⟩

/-! ### C8 — duplicate registration fails fast -/

/-- C8 confirmed: registering a fresh message kind-tag inserts exactly one
registry entry with an empty pending queue, and a second registration of the
same tag — via `listen_for_message`, or via `listen_for_request_message` /
`listen_for_response_message`, which register into the same tag namespace —
panics at registration time (`none`), before any message of that kind could be
delivered: the panic fires inside the registration call, which performs no
delivery, and it leaves the registry untouched, so the first registration's
pending queue remains the only entry for the tag. -/
theorem C8_duplicate_registration_panics (st : NetState) (name : String)
    (h : containsKind st.recvMessageMap name = false) :
    ∃ st1, listenForMessage name st = some st1 ∧
      lookupKind st1.recvMessageMap name = some [] ∧
      countKind st1.recvMessageMap name = 1 ∧
      listenForMessage name st1 = none ∧
      listenForRequestMessage name st1 = none ∧
      listenForResponseMessage name st1 = none := by
  have hnone : lookupKind st.recvMessageMap name = none := by
    simpa [containsKind, Option.isSome_iff_exists] using h
  refine ⟨{ st with recvMessageMap := st.recvMessageMap ++ [(name, [])] }, ?_, ?_, ?_, ?_, ?_, ?_⟩
  · simp [listenForMessage, h]
  · exact lookupKind_append_self st.recvMessageMap name [] hnone
  · have h0 : countKind st.recvMessageMap name = 0 := countKind_of_lookup_none _ _ hnone
    simp only [countKind, List.filter_append, List.length_append] at h0 ⊢
    simp [h0, List.filter]
  · simp [listenForMessage, containsKind, lookupKind_append_self st.recvMessageMap name [] hnone]
  · simp [listenForRequestMessage, containsKind,
      lookupKind_append_self st.recvMessageMap name [] hnone]
  · simp [listenForResponseMessage, containsKind,
      lookupKind_append_self st.recvMessageMap name [] hnone]

/-- Witness instantiating `C8_duplicate_registration_panics` at the initial
manager state and the tag `"example:WorldUpdate"`. -/
theorem C8_witness :
    containsKind initState.recvMessageMap "example:WorldUpdate" = false ∧
    ∃ st1, listenForMessage "example:WorldUpdate" initState = some st1 ∧
      lookupKind st1.recvMessageMap "example:WorldUpdate" = some [] ∧
      countKind st1.recvMessageMap "example:WorldUpdate" = 1 ∧
      listenForMessage "example:WorldUpdate" st1 = none ∧
      listenForRequestMessage "example:WorldUpdate" st1 = none ∧
      listenForResponseMessage "example:WorldUpdate" st1 = none :=
  ⟨rfl, C8_duplicate_registration_panics initState "example:WorldUpdate" rfl⟩

/-! ### C9 — broadcast skips a closed peer without failing -/

/-- C9 confirmed: `broadcast` of a serializable message over a table in which
exactly one connection's outgoing queue is closed returns normally (no panic —
and `broadcast` has no error return at all, so nothing is reported to the
caller; the closed peer is only logged).  The serialized packet is appended to
every connection whose queue is open, and the closed connection's queue is left
untouched. -/
theorem C9_broadcast_skips_closed_queue {α : Type} (ser : α → Option (List Nat))
    (name : String) (st : NetState) (m : α) (bs : List Nat)
    (hser : ser m = some bs)
    (hone : (st.established.filter fun p => p.2.queueClosed).length = 1) :
    ∃ st1, broadcast ser name st m = some st1 ∧
      st1.established.length = st.established.length ∧
      ∀ i c, lookupConn st.established i = some c →
        lookupConn st1.established i =
          some (if c.queueClosed then c else { c with queue := c.queue ++ [⟨name, bs⟩] }) := by
  have hbc : broadcast ser name st m =
      some { st with established :=
        st.established.map fun p =>
          (p.1, if p.2.queueClosed then p.2
                else { p.2 with queue := p.2.queue ++ [⟨name, bs⟩] }) } := by
    simp [broadcast, hser]
  refine ⟨_, hbc, by simp, ?_⟩
  intro i c hc
  simp [lookupConn_broadcast_map, hc]

/-- Witness instantiating `C9_broadcast_skips_closed_queue` over a table of
three connections of which exactly the second has a closed queue. -/
theorem C9_witness :
    serNat 5 = some [5] ∧
    ((NetState.mk [] [(⟨1⟩, ⟨[], false⟩), (⟨2⟩, ⟨[], true⟩), (⟨3⟩, ⟨[], false⟩)]
        0 [] false 0 3).established.filter fun p => p.2.queueClosed).length = 1 ∧
    ∃ st1, broadcast serNat "kind"
        (NetState.mk [] [(⟨1⟩, ⟨[], false⟩), (⟨2⟩, ⟨[], true⟩), (⟨3⟩, ⟨[], false⟩)]
          0 [] false 0 3) 5 = some st1 ∧
      st1.established.length =
        (NetState.mk [] [(⟨1⟩, ⟨[], false⟩), (⟨2⟩, ⟨[], true⟩), (⟨3⟩, ⟨[], false⟩)]
          0 [] false 0 3).established.length ∧
      ∀ i c, lookupConn (NetState.mk [] [(⟨1⟩, ⟨[], false⟩), (⟨2⟩, ⟨[], true⟩), (⟨3⟩, ⟨[], false⟩)]
          0 [] false 0 3).established i = some c →
        lookupConn st1.established i =
          some (if c.queueClosed then c else { c with queue := c.queue ++ [⟨"kind", [5]⟩] }) :=
  ⟨rfl, rfl, C9_broadcast_skips_closed_queue serNat "kind" _ 5 [5] rfl rfl⟩

/-! ### C10 — failed `send_request` is not rolled back -/

/-- C10 confirmed: when `send_request` returns an error (the `?` on
`send_message` propagating e.g. `ConnectionNotFound` or `Serialization`), the
correlation id allocated by `get_responder` keeps its one-shot response slot
registered in the pending map (`senderInMap` true, buffer empty, receiver
alive), the per-request-type counter stays advanced by one, and the network
state is unchanged (nothing was enqueued).  A failed attempt thus permanently
consumes its correlation id. -/
theorem C10_failed_request_keeps_slot {α β : Type} (serReq : Nat × α → Option (List Nat))
    (reqName : String) (rs : RespMapState β) (st : NetState) (clientId : ConnectionId)
    (request : α) (e : NetworkError)
    (herr : (sendRequest serReq reqName rs st clientId request).1 = .error e) :
    lookupSlot (sendRequest serReq reqName rs st clientId request).2.1.slots
        (rs.count % u64Size) = some { buf := none, receiverLive := true, senderInMap := true } ∧
    (sendRequest serReq reqName rs st clientId request).2.1.count = (rs.count + 1) % u64Size ∧
    (sendRequest serReq reqName rs st clientId request).2.2 = st := by
  refine ⟨?_, ?_, ?_⟩
  · exact lookupSlot_insertSlot_self rs.slots (rs.count % u64Size) _
  · rfl
  · simp only [sendRequest, getResponder] at herr ⊢
    split at herr
    · exact absurd herr (by simp)
    · exact sendMessage_error_state serReq reqName st clientId _ _ (by assumption)

/-- Witness instantiating `C10_failed_request_keeps_slot` at the initial states:
the table is empty, so the send fails with `ConnectionNotFound`, yet slot 0
stays registered and the counter has advanced to 1. -/
theorem C10_witness :
    (sendRequest serPair "req" (respMapInit (β := Nat)) initState ⟨1⟩ 7).1 =
      .error (.ConnectionNotFound ⟨1⟩) ∧
    (lookupSlot (sendRequest serPair "req" (respMapInit (β := Nat)) initState ⟨1⟩ 7).2.1.slots
        ((respMapInit (β := Nat)).count % u64Size) =
        some { buf := none, receiverLive := true, senderInMap := true } ∧
     (sendRequest serPair "req" (respMapInit (β := Nat)) initState ⟨1⟩ 7).2.1.count =
        ((respMapInit (β := Nat)).count + 1) % u64Size ∧
     (sendRequest serPair "req" (respMapInit (β := Nat)) initState ⟨1⟩ 7).2.2 = initState) :=
  ⟨rfl, C10_failed_request_keeps_slot serPair "req" respMapInit initState ⟨1⟩ 7
      (.ConnectionNotFound ⟨1⟩) rfl⟩

/-! ### C7 — `send_message` and the `ConnectionNotFound` boundary -/

/-- C7 confirmed: `send_message(id, m)` (for a serializable `m`) returns
`ConnectionNotFound` exactly when `id` is absent from the connection table.  In
particular, on the fresh manager with an empty table, sending to
`ConnectionId 1` fails with `ConnectionNotFound` (never a silent success);
after one connection is established through the new-connection path of
`handle_new_incoming_connections` — which assigns it id 1 — the same call
succeeds and appends the serialized packet to that connection's outgoing queue,
and on the receiving side the demux step appends `(sender, bytes)` to the
pending queue registered for the message's kind. -/
theorem C7_send_message_connection_not_found {α : Type} (ser : α → Option (List Nat))
    (name : String) (m : α) (bs : List Nat) (hser : ser m = some bs)
    (pst : NetState) (q : List (ConnectionId × List Nat))
    (hreg : lookupKind pst.recvMessageMap name = some q) (senderId : ConnectionId) :
    (∀ st cid, ((sendMessage ser name st cid m).1 = .error (.ConnectionNotFound cid) ↔
        lookupConn st.established cid = none)) ∧
    (sendMessage ser name initState ⟨1⟩ m).1 = .error (.ConnectionNotFound ⟨1⟩) ∧
    lookupConn (stepPoll (stepArrive initState) []).1.established ⟨1⟩ = some ⟨[], false⟩ ∧
    (sendMessage ser name (stepPoll (stepArrive initState) []).1 ⟨1⟩ m).1 = .ok () ∧
    lookupConn ((sendMessage ser name (stepPoll (stepArrive initState) []).1 ⟨1⟩ m).2).established
      ⟨1⟩ = some ⟨[⟨name, bs⟩], false⟩ ∧
    lookupKind (demuxPacket pst senderId ⟨name, bs⟩).recvMessageMap name =
      some (q ++ [(senderId, bs)]) := by
  have hst1 : (stepPoll (stepArrive initState) []).1 =
      { initState with established := [(⟨1⟩, ⟨[], false⟩)], connectionCount := 1 } := by decide
  refine ⟨?_, rfl, ?_, ?_, ?_, ?_⟩
  · intro st cid
    cases hc : lookupConn st.established cid with
    | none => simp [sendMessage, hc]
    | some conn =>
        by_cases hq : conn.queueClosed <;> simp [sendMessage, hc, hser, hq]
  · rw [hst1]; rfl
  · rw [hst1]; simp [sendMessage, lookupConn, hser, initState]
  · rw [hst1]; simp [sendMessage, lookupConn, hser, initState, insertConn]
  · simp [demuxPacket, hreg, lookupKind_updateKind_self _ _ _ _ hreg]

/-- Witness instantiating `C7_send_message_connection_not_found` with a `Nat`
payload, the kind tag `"kind"`, and a peer manager that has `"kind"` registered
with an empty pending queue. -/
theorem C7_witness :
    serNat 5 = some [5] ∧
    lookupKind (NetState.mk [("kind", [])] [] 0 [] false 0 0).recvMessageMap "kind" = some [] ∧
    ((∀ st cid, ((sendMessage serNat "kind" st cid 5).1 = .error (.ConnectionNotFound cid) ↔
        lookupConn st.established cid = none)) ∧
     (sendMessage serNat "kind" initState ⟨1⟩ 5).1 = .error (.ConnectionNotFound ⟨1⟩) ∧
     lookupConn (stepPoll (stepArrive initState) []).1.established ⟨1⟩ = some ⟨[], false⟩ ∧
     (sendMessage serNat "kind" (stepPoll (stepArrive initState) []).1 ⟨1⟩ 5).1 = .ok () ∧
     lookupConn ((sendMessage serNat "kind" (stepPoll (stepArrive initState) []).1 ⟨1⟩ 5).2).established
       ⟨1⟩ = some ⟨[⟨"kind", [5]⟩], false⟩ ∧
     lookupKind (demuxPacket (NetState.mk [("kind", [])] [] 0 [] false 0 0) ⟨2⟩
         ⟨"kind", [5]⟩).recvMessageMap "kind" = some ([] ++ [(⟨2⟩, [5])])) :=
  ⟨rfl, rfl, C7_send_message_connection_not_found serNat "kind" 5 [5] rfl
      (NetState.mk [("kind", [])] [] 0 [] false 0 0) [] rfl ⟨2⟩⟩

/-! ### C6 — request/response round trip -/

/-- C6 confirmed: a request with payload `P` sent via `send_request` over an open
connection allocates correlation id `cid = count % 2^64`, returns an `ok`
handle bound to that id, and enqueues the serialized `RequestInternal` packet.
On the responder, demuxing and draining that packet delivers `(cid, P)`, the
request-handler system wraps it — capturing the source connection's outgoing
channel — and `respond R` enqueues the serialized `ResponseInternal` carrying
the same `cid`.  Back on the requester, processing the deserialized response
resolves the one-shot slot with exactly `R` and removes `cid` from the pending
map, so a duplicate response with the same id is dropped and resolves nothing;
polling the `Response` handle then yields exactly `R` and consumes the handle
(a second poll yields nothing). -/
theorem C6_request_response_round_trip {α β : Type}
    (serReq : Nat × α → Option (List Nat)) (deReq : List Nat → Option (Nat × α))
    (serResp : Nat × β → Option (List Nat)) (deResp : List Nat → Option (Nat × β))
    (reqName respName : String)
    (rs : RespMapState β) (net : NetState) (clientId : ConnectionId) (conn : Conn)
    (P : α) (R Rdup : β) (reqBytes respBytes : List Nat)
    (pst : NetState) (srcId : ConnectionId) (pconn : Conn)
    (hconn : lookupConn net.established clientId = some conn)
    (hopen : conn.queueClosed = false)
    (hser1 : serReq (rs.count % u64Size, P) = some reqBytes)
    (hde1 : deReq reqBytes = some (rs.count % u64Size, P))
    (hser2 : serResp (rs.count % u64Size, R) = some respBytes)
    (hde2 : deResp respBytes = some (rs.count % u64Size, R))
    (hpreg : lookupKind pst.recvMessageMap reqName = some [])
    (hpconn : lookupConn pst.established srcId = some pconn)
    (hpopen : pconn.queueClosed = false) :
    (sendRequest serReq reqName rs net clientId P).1 = .ok (rs.count % u64Size) ∧
    lookupConn (sendRequest serReq reqName rs net clientId P).2.2.established clientId =
      some { conn with queue := conn.queue ++ [⟨reqName, reqBytes⟩] } ∧
    (registerMessageDrain deReq reqName (demuxPacket pst srcId ⟨reqName, reqBytes⟩)).2 =
      [(srcId, (rs.count % u64Size, P))] ∧
    createRequestHandlers (registerMessageDrain deReq reqName
        (demuxPacket pst srcId ⟨reqName, reqBytes⟩)).1 [(srcId, (rs.count % u64Size, P))] =
      [{ request := P, source := srcId, requestId := rs.count % u64Size, responseTx := pconn }] ∧
    respond serResp respName
      { request := P, source := srcId, requestId := rs.count % u64Size, responseTx := pconn } R =
      .ok { pconn with queue := pconn.queue ++ [⟨respName, respBytes⟩] } ∧
    deResp respBytes = some (rs.count % u64Size, R) ∧
    ∃ rs2, handleResponse (sendRequest serReq reqName rs net clientId P).2.1
        (rs.count % u64Size) R = some rs2 ∧
      (lookupSlot rs2.slots (rs.count % u64Size)).map Slot.senderInMap = some false ∧
      handleResponse rs2 (rs.count % u64Size) Rdup = some rs2 ∧
      (responseTryRecv rs2 (rs.count % u64Size)).1 = some R ∧
      (responseTryRecv (responseTryRecv rs2 (rs.count % u64Size)).2 (rs.count % u64Size)).1 =
        none := by
  refine ⟨?_, ?_, ?_, ?_, ?_, hde2, ?_⟩
  · simp [sendRequest, getResponder, sendMessage, hconn, hser1, hopen]
  · simp [sendRequest, getResponder, sendMessage, hconn, hser1, hopen,
      lookupConn_insertConn_self]
  · simp [registerMessageDrain, demuxPacket, hpreg,
      lookupKind_updateKind_self _ _ _ _ hpreg, hde1]
  · simp [createRequestHandlers, registerMessageDrain, demuxPacket, hpreg,
      lookupKind_updateKind_self _ _ _ _ hpreg, hpconn]
  · simp [respond, hser2, hpopen]
  · have hrs1 : (sendRequest serReq reqName rs net clientId P).2.1 =
        { count := (rs.count + 1) % u64Size
        , slots := insertSlot rs.slots (rs.count % u64Size)
            { buf := none, receiverLive := true, senderInMap := true } } := rfl
    refine ⟨{ count := (rs.count + 1) % u64Size
            , slots := insertSlot (insertSlot rs.slots (rs.count % u64Size)
                  { buf := none, receiverLive := true, senderInMap := true })
                (rs.count % u64Size)
                { buf := some R, receiverLive := true, senderInMap := false } }
          , ?_, ?_, ?_, ?_, ?_⟩
    · rw [hrs1]
      simp [handleResponse, lookupSlot_insertSlot_self]
    · simp [lookupSlot_insertSlot_self]
    · simp [handleResponse, lookupSlot_insertSlot_self]
    · simp [responseTryRecv, lookupSlot_insertSlot_self]
    · simp [responseTryRecv, lookupSlot_insertSlot_self]

/-- Witness instantiating `C6_request_response_round_trip`: `Nat` payloads with
the pair codec, request payload 7 answered with 9 (duplicate response 3),
correlation id 0, a requester manager with one open connection (id 1) and a
responder manager that registered the request kind `"req"` and sees the
requester as its connection id 2. -/
theorem C6_witness :
    lookupConn oneConnState.established ⟨1⟩ = some ⟨[], false⟩ ∧
    serPair (0, 7) = some [0, 7] ∧
    dePair [0, 7] = some (0, 7) ∧
    serPair (0, 9) = some [0, 9] ∧
    dePair [0, 9] = some (0, 9) ∧
    lookupKind (NetState.mk [("req", [])] [(⟨2⟩, ⟨[], false⟩)] 0 [] false 0 0).recvMessageMap
      "req" = some [] ∧
    lookupConn (NetState.mk [("req", [])] [(⟨2⟩, ⟨[], false⟩)] 0 [] false 0 0).established ⟨2⟩ =
      some ⟨[], false⟩ ∧
    ((sendRequest serPair "req" (respMapInit (β := Nat)) oneConnState ⟨1⟩ 7).1 = .ok 0 ∧
     lookupConn (sendRequest serPair "req" (respMapInit (β := Nat)) oneConnState ⟨1⟩
         7).2.2.established ⟨1⟩ = some ⟨[⟨"req", [0, 7]⟩], false⟩ ∧
     (registerMessageDrain dePair "req"
        (demuxPacket (NetState.mk [("req", [])] [(⟨2⟩, ⟨[], false⟩)] 0 [] false 0 0) ⟨2⟩
          ⟨"req", [0, 7]⟩)).2 = [(⟨2⟩, (0, 7))] ∧
     createRequestHandlers (registerMessageDrain dePair "req"
        (demuxPacket (NetState.mk [("req", [])] [(⟨2⟩, ⟨[], false⟩)] 0 [] false 0 0) ⟨2⟩
          ⟨"req", [0, 7]⟩)).1 [(⟨2⟩, (0, 7))] =
       [{ request := 7, source := ⟨2⟩, requestId := 0, responseTx := ⟨[], false⟩ }] ∧
     respond serPair "req_response"
       { request := 7, source := ⟨2⟩, requestId := 0, responseTx := ⟨[], false⟩ } 9 =
       .ok ⟨[⟨"req_response", [0, 9]⟩], false⟩ ∧
     dePair [0, 9] = some (0, 9) ∧
     ∃ rs2, handleResponse (sendRequest serPair "req" (respMapInit (β := Nat)) oneConnState ⟨1⟩
         7).2.1 0 9 = some rs2 ∧
       (lookupSlot rs2.slots 0).map Slot.senderInMap = some false ∧
       handleResponse rs2 0 3 = some rs2 ∧
       (responseTryRecv rs2 0).1 = some 9 ∧
       (responseTryRecv (responseTryRecv rs2 0).2 0).1 = none) :=
  ⟨rfl, rfl, rfl, rfl, rfl, rfl, rfl,
   C6_request_response_round_trip serPair dePair serPair dePair "req" "req_response"
     respMapInit oneConnState ⟨1⟩ ⟨[], false⟩ 7 9 3 [0, 7] [0, 9]
     (NetState.mk [("req", [])] [(⟨2⟩, ⟨[], false⟩)] 0 [] false 0 0) ⟨2⟩ ⟨[], false⟩
     rfl rfl rfl rfl rfl rfl rfl rfl rfl⟩

/-! ### Trace lemmas for the lifecycle claims -/

theorem runAcc_cons (st : NetState) (acc : List Nat) (op : Op) (ops : List Op) :
    runAcc st acc (op :: ops) = runAcc (step st acc op).1 (step st acc op).2 ops := rfl

theorem runAcc_append (l1 l2 : List Op) : ∀ (st : NetState) (acc : List Nat),
    runAcc st acc (l1 ++ l2) =
      runAcc (runAcc st acc l1).1 (runAcc st acc l1).2 l2 := by
  induction l1 with
  | nil => intro st acc; rfl
  | cons op ops ih =>
      intro st acc
      rw [List.cons_append, runAcc_cons, runAcc_cons]
      exact ih _ _

theorem pollEstablish_preserves : ∀ (k : Nat) (st : NetState) (acc : List Nat),
    (pollEstablish k st acc).1.serverHandle = st.serverHandle ∧
    (pollEstablish k st acc).1.activeListeners = st.activeListeners ∧
    (pollEstablish k st acc).1.newConnections = st.newConnections ∧
    (pollEstablish k st acc).1.disconnected = st.disconnected := by
  intro k
  induction k with
  | zero => intro st acc; exact ⟨rfl, rfl, rfl, rfl⟩
  | succ n ih =>
      intro st acc
      exact ih _ _

theorem step_listener_inv (st : NetState) (acc : List Nat) (op : Op)
    (h : (st.serverHandle = true → st.activeListeners = 1) ∧
         (st.serverHandle = false → st.activeListeners = 0)) :
    ((step st acc op).1.serverHandle = true → (step st acc op).1.activeListeners = 1) ∧
    ((step st acc op).1.serverHandle = false → (step st acc op).1.activeListeners = 0) := by
  rcases h with ⟨h1, h0⟩
  cases op with
  | listen =>
      cases hh : st.serverHandle with
      | true => simp [step, stepListen, stepStop, hh, h1 hh]
      | false => simp [step, stepListen, stepStop, hh, h0 hh]
  | stop =>
      cases hh : st.serverHandle with
      | true => simp [step, stepStop, hh, h1 hh]
      | false => simp [step, stepStop, hh, h0 hh]
  | arrive => exact ⟨h1, h0⟩
  | poll =>
      have hp := pollEstablish_preserves st.newConnections
        { st with newConnections := 0 } acc
      constructor
      · intro hh
        simp only [step, stepPoll] at hh ⊢
        rw [hp.1] at hh
        rw [hp.2.1]
        exact h1 hh
      · intro hh
        simp only [step, stepPoll] at hh ⊢
        rw [hp.1] at hh
        rw [hp.2.1]
        exact h0 hh
  | disconnect connId => exact ⟨h1, h0⟩
  | connDied connId => exact ⟨h1, h0⟩
  | closeQueue connId =>
      simp only [step, stepCloseQueue]
      cases lookupConn st.established connId with
      | none => exact ⟨h1, h0⟩
      | some c => exact ⟨h1, h0⟩
  | demux connId pkt =>
      simp only [step, demuxPacket]
      cases lookupKind st.recvMessageMap pkt.kind with
      | none => exact ⟨h1, h0⟩
      | some packets => exact ⟨h1, h0⟩
  | register name =>
      simp only [step]
      by_cases hr : containsKind st.recvMessageMap name <;> simp [hr] <;> exact ⟨h1, h0⟩
  | sendPkt connId pkt =>
      simp only [step]
      cases lookupConn st.established connId with
      | none => exact ⟨h1, h0⟩
      | some c =>
          by_cases hq : c.queueClosed <;> simp [hq] <;> exact ⟨h1, h0⟩

theorem runAcc_listener_inv : ∀ (ops : List Op) (st : NetState) (acc : List Nat),
    ((st.serverHandle = true → st.activeListeners = 1) ∧
     (st.serverHandle = false → st.activeListeners = 0)) →
    (((runAcc st acc ops).1.serverHandle = true → (runAcc st acc ops).1.activeListeners = 1) ∧
     ((runAcc st acc ops).1.serverHandle = false → (runAcc st acc ops).1.activeListeners = 0)) := by
  intro ops
  induction ops with
  | nil => intro st acc h; exact h
  | cons op rest ih =>
      intro st acc h
      rw [runAcc_cons]
      exact ih _ _ (step_listener_inv st acc op h)

/-! ### C1 — listener uniqueness and the effect of `stop` -/

/-- C1 counterexample: a connection can be established without any `listen`
(e.g. via `connect`: the socket arrives on the shared `new_connections` channel
and is established by the poll step).  A subsequent `stop()` then finds
`server_handle` empty and does nothing, so immediately after `stop()` returns
the connection table is non-empty and `has_connections()` is still true —
refuting the claim that after any `stop()` call `has_connections()` is false
and the table is empty. -/
theorem C1_stop_without_listener_keeps_connections :
    (run [Op.arrive, Op.poll, Op.stop]).established = [(⟨1⟩, ⟨[], false⟩)] ∧
    hasConnections (run [Op.arrive, Op.poll, Op.stop]) = true := by
  refine ⟨by decide, by decide⟩

/-- C1 amended: over every operation sequence of one manager, at most one
listener task is active at any time (`listen` stops the previous listener
before spawning one).  A `stop()` issued while a listener is active empties the
connection table, making `has_connections()` false; a `stop()` with no active
listener is a no-op and leaves previously established connections (e.g. made
via `connect`) in place. -/
theorem C1_amended_listener_and_stop (ops : List Op) :
    (run ops).activeListeners ≤ 1 ∧
    (run (ops ++ [Op.stop])).established =
      (if (run ops).serverHandle then [] else (run ops).established) ∧
    hasConnections (run (ops ++ [Op.stop])) =
      (if (run ops).serverHandle then false else hasConnections (run ops)) := by
  have hinv := runAcc_listener_inv ops initState []
    ⟨fun h => by simp [initState] at h, fun _ => rfl⟩
  have hstop : run (ops ++ [Op.stop]) = stepStop (run ops) := by
    rw [run, runAcc_append]
    rfl
  refine ⟨?_, ?_, ?_⟩
  · cases hh : (run ops).serverHandle with
    | true => rw [run] at hh ⊢; rw [hinv.1 hh]
    | false => rw [run] at hh ⊢; rw [hinv.2 hh]; omega
  · rw [hstop]
    cases hh : (run ops).serverHandle with
    | true => simp [stepStop, hh]
    | false => simp [stepStop, hh]
  · rw [hstop]
    cases hh : (run ops).serverHandle with
    | true => simp [stepStop, hh, hasConnections]
    | false => simp [stepStop, hh]

theorem pollEstablish_spec : ∀ (k : Nat) (st : NetState) (acc : List Nat) (n : Nat),
    st.connectionCount = n →
    acc = List.range' 1 n →
    n + k < u32Size →
    (pollEstablish k st acc).2 = List.range' 1 (n + k) ∧
    (pollEstablish k st acc).1.connectionCount = n + k := by
  intro k
  induction k with
  | zero =>
      intro st acc n h1 h2 h3
      exact ⟨by simpa [pollEstablish] using h2, by simpa [pollEstablish] using h1⟩
  | succ m ih =>
      intro st acc n h1 h2 h3
      have hc : (st.connectionCount + 1) % u32Size = n + 1 := by
        rw [h1]
        exact Nat.mod_eq_of_lt (by omega)
      have hstep : pollEstablish (m + 1) st acc =
          pollEstablish m
            { st with
                connectionCount := (st.connectionCount + 1) % u32Size
              , established := insertConn st.established
                  ⟨(st.connectionCount + 1) % u32Size⟩ ⟨[], false⟩ }
            (acc ++ [(st.connectionCount + 1) % u32Size]) := rfl
      rw [hstep]
      have h2' : acc ++ [(st.connectionCount + 1) % u32Size] = List.range' 1 (n + 1) := by
        rw [hc, h2]
        have hr := @List.range'_concat 1 1 n
        simp only [one_mul] at hr
        rw [hr, Nat.add_comm 1 n]
      have := ih
        { st with
            connectionCount := (st.connectionCount + 1) % u32Size
          , established := insertConn st.established
              ⟨(st.connectionCount + 1) % u32Size⟩ ⟨[], false⟩ }
        (acc ++ [(st.connectionCount + 1) % u32Size]) (n + 1) (by simp [hc]) h2' (by omega)
      simpa [Nat.add_assoc, Nat.add_comm 1 m] using this

theorem step_counter_fields (st : NetState) (acc : List Nat) (op : Op) (hop : op ≠ Op.poll) :
    (step st acc op).1.connectionCount = st.connectionCount ∧
    (step st acc op).1.newConnections ≤ st.newConnections + numArrivals [op] ∧
    (step st acc op).2 = acc := by
  cases op with
  | poll => exact absurd rfl hop
  | listen => by_cases hh : st.serverHandle <;> simp [step, stepListen, stepStop, hh, numArrivals]
  | stop => by_cases hh : st.serverHandle <;> simp [step, stepStop, hh, numArrivals]
  | arrive => simp [step, stepArrive, numArrivals]
  | disconnect connId => simp [step, stepDisconnect, numArrivals]
  | connDied connId => simp [step, stepConnDied, numArrivals]
  | closeQueue connId =>
      simp only [step, stepCloseQueue]
      cases lookupConn st.established connId <;> simp [numArrivals]
  | demux connId pkt =>
      simp only [step, demuxPacket]
      cases lookupKind st.recvMessageMap pkt.kind <;> simp [numArrivals]
  | register name =>
      simp only [step]
      by_cases hr : containsKind st.recvMessageMap name <;> simp [hr, numArrivals]
  | sendPkt connId pkt =>
      simp only [step]
      cases lookupConn st.established connId with
      | none => simp [numArrivals]
      | some c => by_cases hq : c.queueClosed <;> simp [hq, numArrivals]

theorem numArrivals_cons (op : Op) (rest : List Op) :
    numArrivals (op :: rest) = numArrivals [op] + numArrivals rest := by
  cases op <;> simp [numArrivals] <;> omega

theorem runAcc_ids_spec : ∀ (ops : List Op) (st : NetState) (acc : List Nat) (n : Nat),
    st.connectionCount = n →
    acc = List.range' 1 n →
    n + st.newConnections + numArrivals ops < u32Size →
    ∃ m, (runAcc st acc ops).2 = List.range' 1 m ∧
      (runAcc st acc ops).1.connectionCount = m ∧
      m + (runAcc st acc ops).1.newConnections ≤ n + st.newConnections + numArrivals ops := by
  intro ops
  induction ops with
  | nil =>
      intro st acc n h1 h2 h3
      refine ⟨n, h2, h1, ?_⟩
      simp only [runAcc, numArrivals]
      omega
  | cons op rest ih =>
      intro st acc n h1 h2 h3
      rw [runAcc_cons]
      have hnum : numArrivals (op :: rest) = numArrivals [op] + numArrivals rest :=
        numArrivals_cons op rest
      by_cases hop : op = Op.poll
      · subst hop
        have hnum0 : numArrivals [Op.poll] = 0 := rfl
        have hpe := pollEstablish_spec st.newConnections { st with newConnections := 0 } acc n
          (by simpa using h1) h2 (by omega)
        have hfields := pollEstablish_preserves st.newConnections
          { st with newConnections := 0 } acc
        have hA : (step st acc Op.poll).1.connectionCount = n + st.newConnections := by
          simp only [step, stepPoll]
          exact hpe.2
        have hB : (step st acc Op.poll).1.newConnections = 0 := by
          simp only [step, stepPoll]
          exact hfields.2.2.1
        have hC : (step st acc Op.poll).2 = List.range' 1 (n + st.newConnections) := by
          simp only [step, stepPoll]
          exact hpe.1
        obtain ⟨m, hm1, hm2, hm3⟩ := ih (step st acc Op.poll).1 (step st acc Op.poll).2
          (n + st.newConnections) hA hC (by omega)
        exact ⟨m, hm1, hm2, by omega⟩
      · obtain ⟨hA, hB, hC⟩ := step_counter_fields st acc op hop
        obtain ⟨m, hm1, hm2, hm3⟩ := ih (step st acc op).1 (step st acc op).2 n
          (by rw [hA, h1]) (by rw [hC]; exact h2) (by omega)
        exact ⟨m, hm1, hm2, by omega⟩

/-! ### C5 — ConnectionIds strictly increase and are never reused -/

/-- C5 confirmed: over every operation sequence of one manager in which the
`u32` connection counter cannot wrap (fewer than `2^32` socket arrivals — the
counter increments once per established connection and is never reset, not by
disconnects and not by `stop()`/`listen()` cycles), the `Connected` ids emitted
by the establishment path are strictly increasing and no id is ever assigned
twice. -/
theorem C5_connection_ids_strictly_increasing (ops : List Op)
    (h : numArrivals ops < u32Size) :
    List.Chain' (· < ·) (connectedIds ops) ∧ (connectedIds ops).Nodup := by
  obtain ⟨m, hm1, -, -⟩ := runAcc_ids_spec ops initState [] 0 rfl rfl
    (by simpa [initState] using h)
  rw [connectedIds, hm1]
  exact ⟨(List.pairwise_lt_range' 1 m).chain', List.nodup_range' 1 m⟩

/-- Witness instantiating `C5_connection_ids_strictly_increasing` on a trace
with three arrivals spread over two `listen`/`stop` cycles and a disconnect:
the emitted ids are `[1, 2, 3]`. -/
theorem C5_witness :
    numArrivals [Op.listen, Op.arrive, Op.poll, Op.stop, Op.listen, Op.arrive, Op.arrive,
      Op.poll, Op.disconnect ⟨2⟩, Op.poll] < u32Size ∧
    connectedIds [Op.listen, Op.arrive, Op.poll, Op.stop, Op.listen, Op.arrive, Op.arrive,
      Op.poll, Op.disconnect ⟨2⟩, Op.poll] = [1, 2, 3] ∧
    (List.Chain' (· < ·) (connectedIds [Op.listen, Op.arrive, Op.poll, Op.stop, Op.listen,
        Op.arrive, Op.arrive, Op.poll, Op.disconnect ⟨2⟩, Op.poll]) ∧
     (connectedIds [Op.listen, Op.arrive, Op.poll, Op.stop, Op.listen, Op.arrive, Op.arrive,
        Op.poll, Op.disconnect ⟨2⟩, Op.poll]).Nodup) :=
  ⟨by decide, by decide,
   C5_connection_ids_strictly_increasing
     [Op.listen, Op.arrive, Op.poll, Op.stop, Op.listen, Op.arrive, Op.arrive,
      Op.poll, Op.disconnect ⟨2⟩, Op.poll] (by decide)⟩
